import Mathlib

/-!
Shallow embedding of the CHIP-8 virtual machine interpreter from
`src/chip8/src/vm.ts` (classes `VM` and `Mem`, function `unrecognizedOpcode`).

Modelling conventions:
* JS numbers on the executed integer paths are modelled as `Nat`.  All
  subtractions performed by the source are guarded (`vx >= vy` before
  `vx - vy`, and `256 + vx - vy` in the other branch with byte-sized
  operands), so `Nat` subtraction agrees with JS on the states the theorems
  below quantify over.
* `Uint8Array` reads are `Array.getD _ _ 0`; the theorems only ever read
  in-bounds cells, where this agrees with JS.  `Uint8Array` writes mask the
  stored value to 8 bits (`% 256`) and ignore out-of-range indices, which is
  exactly `Array.setD` composed with `% 256`.
* The JS call stack (`push` at the end, `pop` from the end) is a `List` with
  its head as the top of the stack.
* Exceptions thrown by `step()` are modelled by an error value in `StepOut`;
  since a JS `throw` leaves the in-place mutations made before it visible,
  `StepOut` also carries the machine state as mutated up to the throw point.
* The single `Math.random()` call (opcode class `0xc`) is modelled by an
  explicit `rand` argument to `step`, standing for `Math.floor(Math.random()*256)`.
  No other opcode reads it.
* The `io.clearDisplay()` external effect is recorded in an effect list.
-/

set_option maxRecDepth 10000

namespace Chip8

/-- `MEMSIZE` from vm.ts: size of memory for a Chip8 VM, always 4k. -/
def MEMSIZE : Nat := 4096

/-- `PROGRAM_START` from vm.ts: the location in memory where programs are loaded. -/
def PROGRAM_START : Nat := 0x200

/-- Modelled from the spec: `src/chip8/src/font.ts` (imported by vm.ts as
`font.BYTES`) is not part of the provided sources.  The spec says memory is
"pre-seeded at construction with a built-in fixed bitmap font table at
address 0", "a small fixed bitmap glyph set".  We use the standard CHIP-8
80-byte font (16 glyphs of 5 bytes each); no claim below depends on the
individual byte values, only on the seeding happening at address 0. -/
def fontBYTES : List Nat :=
  [0xF0, 0x90, 0x90, 0x90, 0xF0,
   0x20, 0x60, 0x20, 0x20, 0x70,
   0xF0, 0x10, 0xF0, 0x80, 0xF0,
   0xF0, 0x10, 0xF0, 0x10, 0xF0,
   0x90, 0x90, 0xF0, 0x10, 0x10,
   0xF0, 0x80, 0xF0, 0x10, 0xF0,
   0xF0, 0x80, 0xF0, 0x90, 0xF0,
   0xF0, 0x10, 0x20, 0x40, 0x40,
   0xF0, 0x90, 0xF0, 0x90, 0xF0,
   0xF0, 0x90, 0xF0, 0x10, 0xF0,
   0xF0, 0x90, 0xF0, 0x90, 0x90,
   0xE0, 0x90, 0xE0, 0x90, 0xE0,
   0xF0, 0x80, 0x80, 0x80, 0xF0,
   0xE0, 0x90, 0x90, 0x90, 0xE0,
   0xF0, 0x80, 0xF0, 0x80, 0xF0,
   0xF0, 0x80, 0xF0, 0x80, 0x80]

/-- Chip8 memory (`class Mem` in vm.ts): a `Uint8Array` of `MEMSIZE` bytes,
modelled as the map from indices to cell contents. -/
structure Mem where
  buf : Nat → Nat

/-- `Mem.u8`: `return this.buf[i]` (in-bounds reads only; the theorems below
never read past `MEMSIZE`). -/
def Mem.u8 (m : Mem) (i : Nat) : Nat :=
  if i < MEMSIZE then m.buf i else 0

/-- `Mem.setu8`: `this.buf[i] = value` (a `Uint8Array` store masks the value
to 8 bits and ignores out-of-range indices). -/
def Mem.setu8 (m : Mem) (i value : Nat) : Mem :=
  if i < MEMSIZE then
    { buf := fun j => if j = i then value % 256 else m.buf j }
  else
    m

/-- `Mem.u16`: chip-8 instructions are read as big endian,
`(this.buf[i] << 8) + this.buf[i + 1]`. -/
def Mem.u16 (m : Mem) (i : Nat) : Nat :=
  ((m.u8 i) <<< 8) + m.u8 (i + 1)

/-- `Mem.setu16`: `this.buf[i] = value >> 8; this.buf[i+1] = value & 0xff`. -/
def Mem.setu16 (m : Mem) (i value : Nat) : Mem :=
  (m.setu8 i (value >>> 8)).setu8 (i + 1) (value &&& 0xff)

/-- `Mem.write`: `for (const x of data) { this.buf[i++] = x; }`. -/
def Mem.write (m : Mem) (i : Nat) (data : List Nat) : Mem :=
  match data with
  | [] => m
  | x :: rest => (m.setu8 i x).write (i + 1) rest

/-- The `Mem` constructor: a zero-filled `Uint8Array(MEMSIZE)`, then
`this.write(0, font.BYTES)`. -/
def Mem.new : Mem :=
  (Mem.mk (fun _ => 0)).write 0 fontBYTES

/-- The external effects requested through the `IO` collaborator interface. -/
inductive Effect where
  | clearDisplay : Effect
deriving DecidableEq, Repr

/-- The exceptions vm.ts can throw during `step()`.  The source distinguishes
them by their `Error` messages (see `VMError.message`); `todo` is the
`throw "TODO"` in the unimplemented `DRW` handler. -/
inductive VMError where
  | stackUnderflow : VMError
  | unrecognizedOpcode (code : Nat) : VMError
  | todo : VMError
deriving DecidableEq, Repr

/-- The message carried by each thrown error: `"Pop from empty stack"` in
`VM.pop`, and `` `Unrecognized opcode: 0x${code.toString(16)}` `` built by
`unrecognizedOpcode` (JS `toString(16)` renders lowercase hex digits with no
leading zeros, as does `Nat.toDigits 16`). -/
def VMError.message : VMError → String
  | .stackUnderflow => "Pop from empty stack"
  | .unrecognizedOpcode code => "Unrecognized opcode: 0x" ++ String.mk (Nat.toDigits 16 code)
  | .todo => "TODO"

/-- The interpreter state (`class VM` in vm.ts), minus the `io` collaborator,
whose invocations are recorded as `Effect`s in `StepOut` instead. -/
structure VM where
  mem : Mem
  pc : Nat
  i : Nat
  v : Array Nat
  stack : List Nat
  dt : Nat
  st : Nat

/-- The `VM` constructor. -/
def VM.new : VM :=
  { mem := Mem.new
    pc := PROGRAM_START
    i := 0
    v := Array.mkArray 16 0
    stack := []
    dt := 0
    st := 0 }

/-- `VM.load`: loads a program into the memory of this VM,
`this.mem.write(PROGRAM_START, program)`. -/
def VM.load (s : VM) (program : List Nat) : VM :=
  { s with mem := s.mem.write PROGRAM_START program }

/-- `VM.fetch`: reads `mem.u16(pc)` and advances `pc` by 2; returned as the
fetched word paired with the updated state. -/
def VM.fetch (s : VM) : Nat × VM :=
  (s.mem.u16 s.pc, { s with pc := s.pc + 2 })

/-- Outcome of one `step()`: the machine state (as mutated up to a possible
throw point), the external effects requested, and the thrown error if any. -/
structure StepOut where
  vm : VM
  effects : List Effect
  err : Option VMError

/-!
`VM.step` below is a line-by-line embedding of `step()` in vm.ts.  Each
numbered `case` block of its `switch (nibble)` is embedded as a handler
function `VM.opK` (for top nibble `K`) taking the fetched word `code` and
the post-fetch state; JS `switch` dispatch becomes a Lean `match` with a
default arm.  The local decode slices `byte1 = code >> 8`,
`byte2 = code & 0xff`, `x = byte1 & 0xf`, `y = byte2 >> 8` of the source
are the helper functions below.  The source's quirks are kept verbatim: in
classes 5, 8, 9 the `y` field is `byte2 >> 8` (always 0, since `byte2` is
already masked to 8 bits), and class 8 sub-opcode 4 masks the sum with
`& 0xf` and compares against `0xf`, exactly as written in vm.ts.
-/

/-- `const byte1 = code >> 8` from `step()`. -/
def byte1 (code : Nat) : Nat := code >>> 8

/-- `const byte2 = code & 0xff` from `step()`. -/
def byte2 (code : Nat) : Nat := code &&& 0xff

/-- `const x = byte1 & 0xf`, as computed in cases 3-9 and 0xc-0xd. -/
def opx (code : Nat) : Nat := byte1 code &&& 0xf

/-- `const y = byte2 >> 8`, as computed in cases 5, 8, 9 and 0xd of the
source (kept verbatim; `byte2` is 8 bits wide, so this is always 0). -/
def opy (code : Nat) : Nat := byte2 code >>> 8

/-- `case 0`: CLS / RET / SYS: an inner `switch (byte2)` when `byte1 === 0`. -/
def VM.op0 (s : VM) (code : Nat) : StepOut :=
  if byte1 code = 0 then
    match byte2 code with
    | 0xe0 =>
      -- CLS
      { vm := s, effects := [.clearDisplay], err := none }
    | 0xee =>
      -- RET: return from a subroutine, `this.pc = this.pop()`
      match s.stack with
      | [] => { vm := s, effects := [], err := some .stackUnderflow }
      | top :: rest =>
        { vm := { s with pc := top, stack := rest }, effects := [], err := none }
    | _ => { vm := s, effects := [], err := some (.unrecognizedOpcode code) }
  else
    -- 0nnn - SYS addr: ignored by modern interpreters
    { vm := s, effects := [], err := none }

/-- `case 1`: JP addr, `this.pc = code & 0xfff`. -/
def VM.op1 (s : VM) (code : Nat) : StepOut :=
  { vm := { s with pc := code &&& 0xfff }, effects := [], err := none }

/-- `case 2`: CALL addr, `this.stack.push(this.pc); this.pc = code & 0xfff`. -/
def VM.op2 (s : VM) (code : Nat) : StepOut :=
  { vm := { s with stack := s.pc :: s.stack, pc := code &&& 0xfff }
    effects := [], err := none }

/-- `case 3`: SE Vx, byte — skip next instruction if `v[x] = kk`. -/
def VM.op3 (s : VM) (code : Nat) : StepOut :=
  if s.v.getD (opx code) 0 = byte2 code then
    -- fetch already incremented by 2, so we only need to increment by 2 more
    { vm := { s with pc := s.pc + 2 }, effects := [], err := none }
  else
    { vm := s, effects := [], err := none }

/-- `case 4`: SNE Vx, byte — skip next instruction if `v[x] != kk`. -/
def VM.op4 (s : VM) (code : Nat) : StepOut :=
  if s.v.getD (opx code) 0 ≠ byte2 code then
    { vm := { s with pc := s.pc + 2 }, effects := [], err := none }
  else
    { vm := s, effects := [], err := none }

/-- `case 5`: SE Vx, Vy (when `(byte2 & 0xf) === 0`), comparing `v[x]` with
`v[y]` for `y = byte2 >> 8` exactly as in the source. -/
def VM.op5 (s : VM) (code : Nat) : StepOut :=
  if byte2 code &&& 0xf = 0 then
    if s.v.getD (opx code) 0 = s.v.getD (opy code) 0 then
      { vm := { s with pc := s.pc + 2 }, effects := [], err := none }
    else
      { vm := s, effects := [], err := none }
  else
    { vm := s, effects := [], err := some (.unrecognizedOpcode code) }

/-- `case 6`: LD Vx, byte — `this.v[x] = byte2`. -/
def VM.op6 (s : VM) (code : Nat) : StepOut :=
  { vm := { s with v := s.v.setD (opx code) (byte2 code) }, effects := [], err := none }

/-- `case 7`: ADD Vx, byte — `this.v[x] += byte2` (no masking in the source). -/
def VM.op7 (s : VM) (code : Nat) : StepOut :=
  { vm := { s with v := s.v.setD (opx code) (s.v.getD (opx code) 0 + byte2 code) }
    effects := [], err := none }

/-- `case 8`: the register-register ALU block, an inner `switch (nibble2)`
on `nibble2 = byte2 & 0xf`, with `y = byte2 >> 8` exactly as in the source.
Where the source writes two registers, the `setD` order below follows the
source's statement order (so on aliasing the later write wins, as in JS). -/
def VM.op8 (s : VM) (code : Nat) : StepOut :=
  match byte2 code &&& 0xf with
  | 0 =>
    -- LD Vx, Vy
    { vm := { s with v := s.v.setD (opx code) (s.v.getD (opy code) 0) }
      effects := [], err := none }
  | 1 =>
    -- OR: `this.v[x] |= this.v[y]`
    { vm := { s with v := s.v.setD (opx code) (s.v.getD (opx code) 0 ||| s.v.getD (opy code) 0) }
      effects := [], err := none }
  | 2 =>
    -- AND: `this.v[x] &= this.v[y]`
    { vm := { s with v := s.v.setD (opx code) (s.v.getD (opx code) 0 &&& s.v.getD (opy code) 0) }
      effects := [], err := none }
  | 3 =>
    -- XOR: `this.v[x] ^= this.v[y]`
    { vm := { s with v := s.v.setD (opx code) (s.v.getD (opx code) 0 ^^^ s.v.getD (opy code) 0) }
      effects := [], err := none }
  | 4 =>
    -- `const sum = v[x] + v[y]; v[x] = sum & 0xf; v[0xf] = sum > 0xf ? 1 : 0`
    { vm := { s with
        v := (s.v.setD (opx code) ((s.v.getD (opx code) 0 + s.v.getD (opy code) 0) &&& 0xf)).setD
               0xf (if s.v.getD (opx code) 0 + s.v.getD (opy code) 0 > 0xf then 1 else 0) }
      effects := [], err := none }
  | 5 =>
    -- SUB: `if (vx >= vy) { v[0xf] = 1; v[x] = vx - vy } else { v[0xf] = 0; v[x] = 256 + vx - vy }`
    if s.v.getD (opx code) 0 ≥ s.v.getD (opy code) 0 then
      { vm := { s with
          v := (s.v.setD 0xf 1).setD (opx code) (s.v.getD (opx code) 0 - s.v.getD (opy code) 0) }
        effects := [], err := none }
    else
      { vm := { s with
          v := (s.v.setD 0xf 0).setD (opx code)
                 (256 + s.v.getD (opx code) 0 - s.v.getD (opy code) 0) }
        effects := [], err := none }
  | 6 =>
    -- SHR Vx {, Vy}: `const v = this.v[x]; this.v[x] = v >> 1; this.v[0xf] = v & 1`
    { vm := { s with
        v := (s.v.setD (opx code) (s.v.getD (opx code) 0 >>> 1)).setD 0xf
               (s.v.getD (opx code) 0 &&& 1) }
      effects := [], err := none }
  | 7 =>
    -- SUBN: like case 5, but vx and vy order are reversed
    if s.v.getD (opy code) 0 ≥ s.v.getD (opx code) 0 then
      { vm := { s with
          v := (s.v.setD 0xf 1).setD (opx code) (s.v.getD (opy code) 0 - s.v.getD (opx code) 0) }
        effects := [], err := none }
    else
      { vm := { s with
          v := (s.v.setD 0xf 0).setD (opx code)
                 (256 + s.v.getD (opy code) 0 - s.v.getD (opx code) 0) }
        effects := [], err := none }
  | 0xe =>
    -- SHL Vx {, Vy}: `const v = this.v[x]; this.v[x] = v << 1; this.v[0xf] = v & 1`
    { vm := { s with
        v := (s.v.setD (opx code) (s.v.getD (opx code) 0 <<< 1)).setD 0xf
               (s.v.getD (opx code) 0 &&& 1) }
      effects := [], err := none }
  | _ => { vm := s, effects := [], err := some (.unrecognizedOpcode code) }

/-- `case 9`: SNE Vx, Vy (when `(byte2 & 0xf) === 0`), with `y = byte2 >> 8`
exactly as in the source. -/
def VM.op9 (s : VM) (code : Nat) : StepOut :=
  if byte2 code &&& 0xf = 0 then
    if s.v.getD (opx code) 0 ≠ s.v.getD (opy code) 0 then
      { vm := { s with pc := s.pc + 2 }, effects := [], err := none }
    else
      { vm := s, effects := [], err := none }
  else
    { vm := s, effects := [], err := some (.unrecognizedOpcode code) }

/-- `case 0xa`: LD I, addr — `this.i = code & 0xfff`. -/
def VM.opA (s : VM) (code : Nat) : StepOut :=
  { vm := { s with i := code &&& 0xfff }, effects := [], err := none }

/-- `case 0xb`: JP V0, addr — `this.pc = this.v[0] + (code & 0xfff)`. -/
def VM.opB (s : VM) (code : Nat) : StepOut :=
  { vm := { s with pc := s.v.getD 0 0 + (code &&& 0xfff) }, effects := [], err := none }

/-- `case 0xc`: RND Vx, byte; `rand` stands for `Math.floor(Math.random()*256)`. -/
def VM.opC (s : VM) (code rand : Nat) : StepOut :=
  { vm := { s with v := s.v.setD (opx code) (rand &&& byte2 code) }, effects := [], err := none }

/-- `case 0xd`: DRW Vx, Vy, nibble — `throw "TODO"` in the source, thrown
before any state is written. -/
def VM.opD (s : VM) (_code : Nat) : StepOut :=
  { vm := s, effects := [], err := some .todo }

/-- The `switch (nibble)` of `step()` on `nibble = byte1 >> 4`, applied to
the already-fetched word and post-fetch state. -/
def VM.exec (s : VM) (code rand : Nat) : StepOut :=
  match byte1 code >>> 4 with
  | 0 => s.op0 code
  | 1 => s.op1 code
  | 2 => s.op2 code
  | 3 => s.op3 code
  | 4 => s.op4 code
  | 5 => s.op5 code
  | 6 => s.op6 code
  | 7 => s.op7 code
  | 8 => s.op8 code
  | 9 => s.op9 code
  | 0xa => s.opA code
  | 0xb => s.opB code
  | 0xc => s.opC code rand
  | 0xd => s.opD code
  | _ => { vm := s, effects := [], err := some (.unrecognizedOpcode code) }

/-- `VM.step`: fetch and run a single instruction. -/
def VM.step (s0 : VM) (rand : Nat) : StepOut :=
  (s0.fetch.2).exec s0.fetch.1 rand

/-- Run `n` consecutive `step`s, continuing from the carried state, with the
random byte fixed to 0 (none of the programs used below executes `RND`). -/
def VM.run (s : VM) : Nat → VM
  | 0 => s
  | n + 1 => ((s.step 0).vm).run n

/-- Program `LD V1,0x12; LD V0,0x01; ADD V1,V0` (instruction `0x8104`). -/
def c1prog : List Nat := [0x61, 0x12, 0x60, 0x01, 0x81, 0x04]

/-- Program `LD V1,0x07; LD V2,0x07; SE V1,V2` (instruction `0x5120`). -/
def c2prog : List Nat := [0x61, 0x07, 0x62, 0x07, 0x51, 0x20]

/-- Program `LD V1,0x80; SHL V1` (instruction `0x810E`). -/
def c3prog : List Nat := [0x61, 0x80, 0x81, 0x0E]

/-- Program `LD V1,200; ADD V1,100` (instruction `0x7164`). -/
def c4prog : List Nat := [0x61, 0xC8, 0x71, 0x64]

/-- Program `LD V1,200; ADD V1,100`, the register-range violation run. -/
def c5prog : List Nat := [0x61, 0xC8, 0x71, 0x64]

/-- Program `LD V1,0x0A; LD V2,0x03; SUB V1,V2` (instruction `0x8125`). -/
def c6prog : List Nat := [0x61, 0x0A, 0x62, 0x03, 0x81, 0x25]

/-- Program consisting of the single instruction `RET` (`0x00EE`). -/
def retProgram : List Nat := [0x00, 0xEE]

/-- Program `CALL 0x300` at `0x200`, padding, and `RET` at `0x300`. -/
def callRetProgram : List Nat := [0x23, 0x00] ++ List.replicate 254 0 ++ [0x00, 0xEE]

/-- Program consisting of the single instruction word `0xF000`. -/
def f000Program : List Nat := [0xF0, 0x00]

end Chip8

namespace Chip8

/-! ### Dispatch and frame lemmas about the embedded `step()` -/

lemma op0_mem (s : VM) (code : Nat) : ((s.op0 code).vm).mem = s.mem := by
  unfold VM.op0
  repeat' split
  all_goals rfl

lemma op1_mem (s : VM) (code : Nat) : ((s.op1 code).vm).mem = s.mem := rfl

lemma op2_mem (s : VM) (code : Nat) : ((s.op2 code).vm).mem = s.mem := rfl

lemma op3_mem (s : VM) (code : Nat) : ((s.op3 code).vm).mem = s.mem := by
  unfold VM.op3
  repeat' split
  all_goals rfl

lemma op4_mem (s : VM) (code : Nat) : ((s.op4 code).vm).mem = s.mem := by
  unfold VM.op4
  repeat' split
  all_goals rfl

lemma op5_mem (s : VM) (code : Nat) : ((s.op5 code).vm).mem = s.mem := by
  unfold VM.op5
  repeat' split
  all_goals rfl

lemma op6_mem (s : VM) (code : Nat) : ((s.op6 code).vm).mem = s.mem := rfl

lemma op7_mem (s : VM) (code : Nat) : ((s.op7 code).vm).mem = s.mem := rfl

lemma op8_mem (s : VM) (code : Nat) : ((s.op8 code).vm).mem = s.mem := by
  unfold VM.op8
  repeat' split
  all_goals rfl

lemma op9_mem (s : VM) (code : Nat) : ((s.op9 code).vm).mem = s.mem := by
  unfold VM.op9
  repeat' split
  all_goals rfl

lemma opA_mem (s : VM) (code : Nat) : ((s.opA code).vm).mem = s.mem := rfl

lemma opB_mem (s : VM) (code : Nat) : ((s.opB code).vm).mem = s.mem := rfl

lemma opC_mem (s : VM) (code rand : Nat) : ((s.opC code rand).vm).mem = s.mem := rfl

lemma opD_mem (s : VM) (code : Nat) : ((s.opD code).vm).mem = s.mem := rfl

lemma exec_mem (s : VM) (code rand : Nat) : ((s.exec code rand).vm).mem = s.mem := by
  unfold VM.exec
  split
  all_goals
    simp [op0_mem, op1_mem, op2_mem, op3_mem, op4_mem, op5_mem, op6_mem,
      op7_mem, op8_mem, op9_mem, opA_mem, opB_mem, opC_mem, opD_mem]

/-- Stepping a state whose current instruction word is `CALL nnn`
(`0x2nnn`): the post-fetch pc is pushed and control moves to `nnn`. -/
lemma step_call (s : VM) (rand nnn : Nat) (hn : nnn < 0x1000)
    (hcall : s.mem.u16 s.pc = 0x2000 + nnn) :
    s.step rand =
      { vm := { s with pc := nnn, stack := (s.pc + 2) :: s.stack }
        effects := [], err := none } := by
  unfold VM.step VM.exec VM.fetch Chip8.byte1 VM.op2
  simp only [hcall]
  have h12 : (0x2000 + nnn) >>> 8 >>> 4 = 2 := by omega
  have e : (0xfff : Nat) = 2 ^ 12 - 1 := rfl
  have hm : (0x2000 + nnn) &&& 0xfff = nnn := by
    rw [e, Nat.and_pow_two_sub_one_eq_mod]; omega
  rw [h12, hm]

/-- Stepping a state whose current instruction word is `RET` (`0x00EE`)
with a non-empty stack: the top of the stack is popped into the pc. -/
lemma step_ret (s : VM) (rand top : Nat) (rest : List Nat)
    (hret : s.mem.u16 s.pc = 0x00EE) (hs : s.stack = top :: rest) :
    s.step rand =
      { vm := { s with pc := top, stack := rest }, effects := [], err := none } := by
  unfold VM.step VM.exec VM.fetch VM.op0 Chip8.byte1 Chip8.byte2
  have hb : (238 : Nat) &&& 255 = 238 := by decide
  simp [hret, hs, hb]

end Chip8

namespace Chip8

/-! ### Claim theorems -/

/-- Claim C1.  The claim states that `ADD Vx,Vy` (class 8, sub-opcode 4)
sets `v[x] = (v[x]+v[y]) mod 256` and `v[0xF] = 1` iff the sum exceeds 255.
The code instead computes `v[x] = sum & 0xf` and `v[0xf] = sum > 0xf ? 1:0`
(4-bit mask and threshold).  Concretely: after `LD V1,0x12; LD V0,0x01;
ADD V1,V0` the code leaves `v[1] = 0x03` (not `0x13 = (0x12+0x01) % 256`)
and `v[0xF] = 1` (though `0x13 ≤ 255`). -/
theorem add_vxvy_masks_sum_to_4_bits :
    ((VM.new.load c1prog).run 3).v.getD 1 0 = 0x03 ∧
    ((VM.new.load c1prog).run 3).v.getD 0xf 0 = 1 ∧
    ((VM.new.load c1prog).run 3).v.getD 1 0 ≠ (0x12 + 0x01) % 256 := by decide

/-- Claim C2.  The claim states that for `5xy0` the `y` field is the middle
nibble (bits 4-7) of the instruction word and the skip happens iff
`v[x] = v[y]`.  The code computes `y = byte2 >> 8`, which is always 0
because `byte2 = code & 0xff`, so `SE Vx,Vy` compares `v[x]` against `v[0]`.
Concretely: after `LD V1,7; LD V2,7` the instruction `0x5120` does not skip
(`v[1] = 7 ≠ 0 = v[0]`), leaving `pc = 0x206` instead of the claimed
`0x208`. -/
theorem se_vxvy_y_field_decodes_to_zero :
    ((VM.new.load c2prog).run 3).pc = 0x206 ∧
    ((VM.new.load c2prog).run 3).pc ≠ 0x208 ∧
    opy 0x5120 = 0 := by decide

/-- Claim C3.  The claim states that `SHL Vx` (class 8, sub-opcode 0xE) sets
`v[0xF] = (v[x] >> 7) & 1` and stores the shifted result as an 8-bit value.
The code captures the LOW bit (`v & 1`) and stores `v << 1` unmasked.
Concretely: after `LD V1,0x80; SHL V1` the code leaves `v[1] = 0x100`
(not an 8-bit value) and `v[0xF] = 0`, while the claim requires
`v[0xF] = (0x80 >> 7) & 1 = 1`. -/
theorem shl_captures_low_bit_and_leaves_result_unmasked :
    ((VM.new.load c3prog).run 2).v.getD 1 0 = 0x100 ∧
    ((VM.new.load c3prog).run 2).v.getD 0xf 0 = 0 ∧
    ((VM.new.load c3prog).run 2).v.getD 0xf 0 ≠ (0x80 >>> 7) &&& 1 ∧
    ¬ ((VM.new.load c3prog).run 2).v.getD 1 0 < 256 := by decide

/-- Claim C4.  The claim states that `ADD Vx,byte` (class 7) masks the
result to 8 bits.  The code executes `this.v[x] += byte2` with no masking.
Concretely: after `LD V1,200; ADD V1,100` the code leaves `v[1] = 300`,
not the claimed `(200+100) % 256 = 44`. -/
theorem add_imm_leaves_result_unmasked :
    ((VM.new.load c4prog).run 2).v.getD 1 0 = 300 ∧
    ((VM.new.load c4prog).run 2).v.getD 1 0 ≠ (200 + 100) % 256 := by decide

/-- Claim C5.  The claim states the invariant that every register stays in
[0,255] after any sequence of `load()` and successful `step()` calls.  Two
successful steps (`LD V1,200; ADD V1,100`) from a fresh interpreter leave
`v[1] = 300 > 255`, violating the invariant. -/
theorem register_byte_range_invariant_fails :
    ((VM.new.load c5prog).step 0).err = none ∧
    ((((VM.new.load c5prog).step 0).vm).step 0).err = none ∧
    255 < ((VM.new.load c5prog).run 2).v.getD 1 0 := by decide

/-- Claim C6.  The claim states that `SUB Vx,Vy` (class 8, sub-opcode 5)
sets `v[0xF] = 1` iff `v[x] ≥ v[y]` and `v[x] = (v[x]-v[y]) mod 256`.  The
code decodes `y = byte2 >> 8 = 0` (see C2), so it subtracts `v[0]` instead
of `v[y]`.  Concretely: after `LD V1,10; LD V2,3` the instruction `0x8125`
(`SUB V1,V2`) leaves `v[1] = 10` (it computed `10 - v[0] = 10 - 0`), not the
claimed `(10-3) mod 256 = 7`. -/
theorem sub_vxvy_subtracts_v0 :
    ((VM.new.load c6prog).run 3).v.getD 1 0 = 10 ∧
    ((VM.new.load c6prog).run 3).v.getD 0xf 0 = 1 ∧
    ((VM.new.load c6prog).run 3).v.getD 1 0 ≠ (10 - 3) % 256 ∧
    opy 0x8125 = 0 := by decide

/-- Claim C7.  For any state whose current instruction is `CALL nnn` and
whose memory holds `RET` at `nnn`: executing the CALL and then the RET
succeeds and restores the pc to the address immediately after the CALL
(`pc + 2`, the post-fetch value), with the stack back to its original
contents. -/
theorem call_then_ret_returns_past_call (s : VM) (nnn r1 r2 : Nat)
    (hn : nnn < 0x1000)
    (hcall : s.mem.u16 s.pc = 0x2000 + nnn)
    (hret : s.mem.u16 nnn = 0x00EE) :
    (s.step r1).err = none ∧
    (((s.step r1).vm).step r2).err = none ∧
    ((((s.step r1).vm).step r2).vm).pc = s.pc + 2 ∧
    ((((s.step r1).vm).step r2).vm).stack = s.stack := by
  rw [step_call s r1 nnn hn hcall]
  rw [step_ret { s with pc := nnn, stack := (s.pc + 2) :: s.stack } r2 (s.pc + 2) s.stack
    (by simpa using hret) rfl]
  exact ⟨rfl, rfl, rfl, rfl⟩

/-- Witness for C7: a freshly constructed interpreter loaded with
`CALL 0x300` at the program origin and `RET` at `0x300`. -/
theorem call_then_ret_returns_past_call_witness :
    ((VM.new.load callRetProgram).step 0).err = none ∧
    ((((VM.new.load callRetProgram).step 0).vm).step 0).err = none ∧
    (((((VM.new.load callRetProgram).step 0).vm).step 0).vm).pc
      = (VM.new.load callRetProgram).pc + 2 ∧
    (((((VM.new.load callRetProgram).step 0).vm).step 0).vm).stack
      = (VM.new.load callRetProgram).stack :=
  call_then_ret_returns_past_call (VM.new.load callRetProgram) 0x300 0 0
    (by decide) (by decide) (by decide)

/-- Claim C8.  Executing `RET` (`0x00EE`) on a freshly constructed
interpreter — whose call stack is empty — fails with the Stack-underflow
error (`"Pop from empty stack"` in `VM.pop`), an error kind distinct from
Unrecognized-opcode for every possible opcode value. -/
theorem ret_on_empty_stack_is_stack_underflow (rand : Nat) :
    ((VM.new.load retProgram).step rand).err = some VMError.stackUnderflow ∧
    ∀ code, VMError.message VMError.stackUnderflow
      ≠ VMError.message (VMError.unrecognizedOpcode code) := by
  refine ⟨rfl, fun code h => ?_⟩
  have h2 := congrArg String.length h
  simp only [VMError.message, String.length_append] at h2
  have e1 : ("Pop from empty stack" : String).length = 20 := rfl
  have e2 : ("Unrecognized opcode: 0x" : String).length = 23 := rfl
  omega

/-- Claim C9.  Whenever the fetched instruction word's top nibble is
outside every implemented opcode class (nibbles `0xE` and `0xF`, e.g.
`0xF000`), `step()` fails with Unrecognized-opcode carrying the raw
instruction word; the message renders the word in lowercase hexadecimal,
`"Unrecognized opcode: 0xf000"` for `0xF000`. -/
theorem unknown_class_is_unrecognized_opcode (s : VM) (rand : Nat)
    (h : 0xd < (s.mem.u16 s.pc) >>> 12) :
    (s.step rand).err = some (VMError.unrecognizedOpcode (s.mem.u16 s.pc)) ∧
    VMError.message (VMError.unrecognizedOpcode 0xF000) = "Unrecognized opcode: 0xf000" := by
  constructor
  · unfold VM.step VM.exec VM.fetch Chip8.byte1
    split
    all_goals first | rfl | (exfalso; omega)
  · decide

/-- Witness for C9: a freshly constructed interpreter loaded with the
instruction word `0xF000`. -/
theorem unknown_class_is_unrecognized_opcode_witness :
    ((VM.new.load f000Program).step 0).err
      = some (VMError.unrecognizedOpcode
          ((VM.new.load f000Program).mem.u16 (VM.new.load f000Program).pc)) ∧
    VMError.message (VMError.unrecognizedOpcode 0xF000) = "Unrecognized opcode: 0xf000" :=
  unknown_class_is_unrecognized_opcode (VM.new.load f000Program) 0 (by decide)

/-- Claim C10.  `step()` never writes to memory: whatever instruction is
executed, and whether the step succeeds or fails, the memory carried by the
resulting state is exactly the memory of the starting state. -/
theorem step_preserves_memory (s : VM) (rand : Nat) :
    ((s.step rand).vm).mem = s.mem := by
  unfold VM.step
  rw [exec_mem]
  rfl

end Chip8
